import Mathlib

/-!
Shallow embedding of the Jobaction backend (src/app.py), a Flask router over
an external identity provider and data store.  Request bodies are parsed JSON
objects, modelled as association lists of atomic JSON values; the external
collaborators are modelled by function parameters (the identity provider) and
by explicit table state with error-injection parameters (the data store), so
that every handler is a pure Lean function from its inputs to a result record
carrying the HTTP status, the response payload, the new table state, and flags
recording which collaborators were invoked.
-/

namespace Jobaction

/-- Atomic JSON value appearing in a parsed request body or a stored row. -/
inductive JVal where
  | jnull : JVal
  | jbool : Bool → JVal
  | jnum : Int → JVal
  | jstr : String → JVal
deriving DecidableEq

/-- Python truthiness of a JSON value: `None`, `False`, `0` and `""` are falsy. -/
def JVal.truthy : JVal → Bool
  | .jnull => false
  | .jbool b => b
  | .jnum n => !(n == 0)
  | .jstr s => !(s == "")

/-- A parsed JSON object (request body or data-store row): ordered key/value pairs. -/
abbrev Body := List (String × JVal)

/-- Python `data.get(k)`: the value at key `k`, or `none` when the key is absent. -/
def getField : Body → String → Option JVal
  | [], _ => none
  | p :: rest, k => if p.1 == k then some p.2 else getField rest k

/-- Python truthiness of `data.get(k)`: a missing key is falsy. -/
def truthyOpt : Option JVal → Bool
  | none => false
  | some v => v.truthy

/-- Python `data[k] = v`: replace the value at `k` in place, or append the pair. -/
def setField : Body → String → JVal → Body
  | [], k, v => [(k, v)]
  | p :: rest, k, v => if p.1 == k then (k, v) :: rest else p :: setField rest k v

/-- The characters of the string literal `"Bearer "` used by every handler. -/
def bearerPat : List Char := ['B', 'e', 'a', 'r', 'e', 'r', ' ']

/-- Fuel-indexed worker for Python `token.replace("Bearer ", "")`: scan left to
right, removing each non-overlapping occurrence of the pattern. -/
def stripBearerGo : Nat → List Char → List Char
  | 0, l => l
  | _ + 1, [] => []
  | n + 1, c :: rest =>
      if bearerPat.isPrefixOf (c :: rest) then stripBearerGo n (List.drop 6 rest)
      else c :: stripBearerGo n rest

/-- Python `token.replace("Bearer ", "")`: every occurrence of `"Bearer "` removed. -/
def pyReplaceBearer (s : String) : String :=
  String.mk (stripBearerGo s.data.length s.data)

/-- Python `token.startswith("Bearer ")`. -/
def startsWithBearer (t : String) : Bool := bearerPat.isPrefixOf t.data

/-- The guard `token and token.startswith("Bearer ")` applied to the optional
`Authorization` header: a missing or empty header fails, as does one lacking
the `"Bearer "` prefix. -/
def tokenGiven : Option String → Bool
  | none => false
  | some t => (!(t == "")) && startsWithBearer t

/-- Whether a character list contains an occurrence of `"Bearer "`. -/
def hasBearerOcc : List Char → Bool
  | [] => false
  | c :: rest => bearerPat.isPrefixOf (c :: rest) || hasBearerOcc rest

/-- User identity returned by the identity provider (`res.user`). -/
structure Identity where
  id : String
  email : String
  created_at : String
  updated_at : String
deriving DecidableEq

/-- Session returned by the identity provider (`res.session`). -/
structure Session where
  access_token : String
  refresh_token : String
deriving DecidableEq

/-- The identity provider's token-verification operation
(`supabase.auth.get_user`), abstracted as a function from the forwarded token
to either an error message (a raised exception) or the verified user's id. -/
abbrev Verify := String → Except String String

/-- Result of the `POST /api/auth/login` handler. -/
structure LoginOut where
  status : Nat
  errMsg : Option String
  idpCalled : Bool
  user : Option Identity
  session : Option Session
deriving DecidableEq

/-- The `login` handler (src/app.py): validate `email`/`password` truthiness,
then call `supabase.auth.sign_in_with_password`; an exception maps to 401,
success to a 200 body holding the user record and the session tokens. -/
def login (signIn : JVal → JVal → Except String (Identity × Session))
    (data : Body) : LoginOut :=
  let email := getField data "email"
  let password := getField data "password"
  if !(truthyOpt email) || !(truthyOpt password) then
    { status := 400, errMsg := some "email and password required",
      idpCalled := false, user := none, session := none }
  else
    match signIn (email.getD JVal.jnull) (password.getD JVal.jnull) with
    | .error e =>
        { status := 401, errMsg := some e, idpCalled := true,
          user := none, session := none }
    | .ok (ident, sess) =>
        { status := 200, errMsg := none, idpCalled := true,
          user := some ident, session := some sess }

/-- Result of the `GET /api/jobs` handler. -/
structure GetJobsOut where
  status : Nat
  errMsg : Option String
  rows : List Body
deriving DecidableEq

/-- The `get_jobs` handler (src/app.py): a single pass-through select on the
`jobs` table; the collaborator's outcome is the argument. -/
def get_jobs (res : Except String (List Body)) : GetJobsOut :=
  match res with
  | .ok rows => { status := 200, errMsg := none, rows := rows }
  | .error e => { status := 500, errMsg := some e, rows := [] }

/-- Result of the `GET /api/debug/users` handler. -/
structure DebugUsersOut where
  status : Nat
  errMsg : Option String
  users : List Body
  count : Nat
deriving DecidableEq

/-- The `debug_users` handler (src/app.py): no authorization check and no
field validation; select at most 10 rows from `user_profiles` and return them
with their count, or 500 with the raised message on store failure. -/
def debug_users (selectErr : Option String) (user_profiles : List Body) :
    DebugUsersOut :=
  match selectErr with
  | some e => { status := 500, errMsg := some e, users := [], count := 0 }
  | none =>
      let rows := user_profiles.take 10
      { status := 200, errMsg := none, users := rows, count := rows.length }

/-- Required body fields of the `create_job` handler. -/
def requiredJobFields : List String := ["title", "company", "location", "description"]

/-- Result of the `POST /api/jobs` handler. -/
structure CreateJobOut where
  status : Nat
  errMsg : Option String
  idpCalled : Bool
  idpToken : Option String
  storeCalled : Bool
  jobs : List Body
  respRows : List Body
deriving DecidableEq

/-- The `create_job` handler (src/app.py): body validation first, then the
bearer-token guard, then token verification; on success the body is inserted
into `jobs` with `created_by` overwritten by the verified user id.
`insertErr` injects a failure of the store's insert call (caught as 401). -/
def create_job (verify : Verify) (insertErr : Option String)
    (jobs : List Body) (auth : Option String) (data : Body) : CreateJobOut :=
  if requiredJobFields.any (fun k => !(truthyOpt (getField data k))) then
    { status := 400, errMsg := some "missing job fields", idpCalled := false,
      idpToken := none, storeCalled := false, jobs := jobs, respRows := [] }
  else if !(tokenGiven auth) then
    { status := 401, errMsg := some "Authentication required", idpCalled := false,
      idpToken := none, storeCalled := false, jobs := jobs, respRows := [] }
  else
    let tok := pyReplaceBearer (auth.getD "")
    match verify tok with
    | .error e =>
        { status := 401, errMsg := some e, idpCalled := true, idpToken := some tok,
          storeCalled := false, jobs := jobs, respRows := [] }
    | .ok uid =>
        match insertErr with
        | some e =>
            { status := 401, errMsg := some e, idpCalled := true,
              idpToken := some tok, storeCalled := true, jobs := jobs,
              respRows := [] }
        | none =>
            let row := setField data "created_by" (JVal.jstr uid)
            { status := 201, errMsg := none, idpCalled := true,
              idpToken := some tok, storeCalled := true, jobs := jobs ++ [row],
              respRows := [row] }

/-- The delete predicate of `delete_job`: `.eq("id", job_id).eq("created_by", user_id)`. -/
def rowMatchesDelete (job_id : Int) (uid : String) (r : Body) : Bool :=
  getField r "id" == some (JVal.jnum job_id) &&
    getField r "created_by" == some (JVal.jstr uid)

/-- Result of the `DELETE /api/jobs/<int:job_id>` handler. -/
structure DeleteJobOut where
  status : Nat
  errMsg : Option String
  idpCalled : Bool
  idpToken : Option String
  jobs : List Body
  deleted : List Body
deriving DecidableEq

/-- The `delete_job` handler (src/app.py): bearer-token guard, token
verification, then a delete on `jobs` filtered by
`id == job_id and created_by == user_id`; an empty deleted list maps to 404.
`delErr` injects a failure of the store's delete call (caught as 401). -/
def delete_job (verify : Verify) (delErr : Option String) (jobs : List Body)
    (auth : Option String) (job_id : Int) : DeleteJobOut :=
  if !(tokenGiven auth) then
    { status := 401, errMsg := some "Authentication required", idpCalled := false,
      idpToken := none, jobs := jobs, deleted := [] }
  else
    let tok := pyReplaceBearer (auth.getD "")
    match verify tok with
    | .error e =>
        { status := 401, errMsg := some e, idpCalled := true, idpToken := some tok,
          jobs := jobs, deleted := [] }
    | .ok uid =>
        match delErr with
        | some e =>
            { status := 401, errMsg := some e, idpCalled := true,
              idpToken := some tok, jobs := jobs, deleted := [] }
        | none =>
            let deleted := jobs.filter (rowMatchesDelete job_id uid)
            let rest := jobs.filter (fun r => !(rowMatchesDelete job_id uid r))
            if deleted == [] then
              { status := 404,
                errMsg := some "job not found or you don\x27t have permission to delete it",
                idpCalled := true, idpToken := some tok, jobs := rest,
                deleted := deleted }
            else
              { status := 200, errMsg := none, idpCalled := true,
                idpToken := some tok, jobs := rest, deleted := deleted }

/-- The duplicate/unsave predicate shared by the `applications` and
`saved_jobs` tables: `.eq("job_id", job_id).eq("user_id", user_id)`. -/
def pairMatches (jv : JVal) (uid : String) (r : Body) : Bool :=
  getField r "job_id" == some jv && getField r "user_id" == some (JVal.jstr uid)

/-- Result of the `POST /api/applications` handler. -/
structure CreateAppOut where
  status : Nat
  errMsg : Option String
  idpCalled : Bool
  idpToken : Option String
  insertIssued : Bool
  apps : List Body
deriving DecidableEq

/-- The `create_application` handler (src/app.py): `job_id` truthiness first,
then the bearer-token guard, token verification, a duplicate check on
`applications` by `(job_id, user_id)` (400 when a row exists), and finally an
insert of the `pending` application.  `selectErr`/`insertErr` inject failures
of the two store calls (caught as 401). -/
def create_application (verify : Verify) (selectErr insertErr : Option String)
    (apps : List Body) (auth : Option String) (data : Body) : CreateAppOut :=
  let job_id := getField data "job_id"
  if !(truthyOpt job_id) then
    { status := 400, errMsg := some "job_id required", idpCalled := false,
      idpToken := none, insertIssued := false, apps := apps }
  else if !(tokenGiven auth) then
    { status := 401, errMsg := some "Authentication required", idpCalled := false,
      idpToken := none, insertIssued := false, apps := apps }
  else
    let tok := pyReplaceBearer (auth.getD "")
    match verify tok with
    | .error e =>
        { status := 401, errMsg := some e, idpCalled := true, idpToken := some tok,
          insertIssued := false, apps := apps }
    | .ok uid =>
        match selectErr with
        | some e =>
            { status := 401, errMsg := some e, idpCalled := true,
              idpToken := some tok, insertIssued := false, apps := apps }
        | none =>
            let jv := job_id.getD JVal.jnull
            let existing := apps.filter (pairMatches jv uid)
            if !(existing == []) then
              { status := 400, errMsg := some "Already applied to this job",
                idpCalled := true, idpToken := some tok, insertIssued := false,
                apps := apps }
            else
              match insertErr with
              | some e =>
                  { status := 401, errMsg := some e, idpCalled := true,
                    idpToken := some tok, insertIssued := true, apps := apps }
              | none =>
                  { status := 201, errMsg := none, idpCalled := true,
                    idpToken := some tok, insertIssued := true,
                    apps := apps ++
                      [[("job_id", jv), ("user_id", JVal.jstr uid),
                        ("status", JVal.jstr "pending")]] }

/-- Result of the authenticated list handlers
(`GET /api/applications`, `GET /api/saved-jobs`). -/
structure ListAuthOut where
  status : Nat
  errMsg : Option String
  idpCalled : Bool
  rows : List Body
deriving DecidableEq

/-- The `get_user_applications` handler (src/app.py): bearer-token guard,
token verification, then a pass-through select (with an embedded join done by
the external store, abstracted as `query` from the user id). -/
def get_user_applications (verify : Verify)
    (query : String → Except String (List Body)) (auth : Option String) :
    ListAuthOut :=
  if !(tokenGiven auth) then
    { status := 401, errMsg := some "Authentication required", idpCalled := false,
      rows := [] }
  else
    match verify (pyReplaceBearer (auth.getD "")) with
    | .error e => { status := 401, errMsg := some e, idpCalled := true, rows := [] }
    | .ok uid =>
        match query uid with
        | .error e =>
            { status := 401, errMsg := some e, idpCalled := true, rows := [] }
        | .ok rows =>
            { status := 200, errMsg := none, idpCalled := true, rows := rows }

/-- Result of the `POST /api/saved-jobs` handler. -/
structure SaveJobOut where
  status : Nat
  errMsg : Option String
  idpCalled : Bool
  idpToken : Option String
  insertIssued : Bool
  saved : List Body
deriving DecidableEq

/-- The `save_job` handler (src/app.py): `job_id` truthiness first, then the
bearer-token guard, token verification, a duplicate check on `saved_jobs` by
`(job_id, user_id)` (400 when a row exists), and finally the insert.
`selectErr`/`insertErr` inject failures of the two store calls (caught as 401). -/
def save_job (verify : Verify) (selectErr insertErr : Option String)
    (saved : List Body) (auth : Option String) (data : Body) : SaveJobOut :=
  let job_id := getField data "job_id"
  if !(truthyOpt job_id) then
    { status := 400, errMsg := some "job_id required", idpCalled := false,
      idpToken := none, insertIssued := false, saved := saved }
  else if !(tokenGiven auth) then
    { status := 401, errMsg := some "Authentication required", idpCalled := false,
      idpToken := none, insertIssued := false, saved := saved }
  else
    let tok := pyReplaceBearer (auth.getD "")
    match verify tok with
    | .error e =>
        { status := 401, errMsg := some e, idpCalled := true, idpToken := some tok,
          insertIssued := false, saved := saved }
    | .ok uid =>
        match selectErr with
        | some e =>
            { status := 401, errMsg := some e, idpCalled := true,
              idpToken := some tok, insertIssued := false, saved := saved }
        | none =>
            let jv := job_id.getD JVal.jnull
            let existing := saved.filter (pairMatches jv uid)
            if !(existing == []) then
              { status := 400, errMsg := some "Job already saved",
                idpCalled := true, idpToken := some tok, insertIssued := false,
                saved := saved }
            else
              match insertErr with
              | some e =>
                  { status := 401, errMsg := some e, idpCalled := true,
                    idpToken := some tok, insertIssued := true, saved := saved }
              | none =>
                  { status := 201, errMsg := none, idpCalled := true,
                    idpToken := some tok, insertIssued := true,
                    saved := saved ++ [[("job_id", jv), ("user_id", JVal.jstr uid)]] }

/-- Iterated sequential save-job calls: run the handler `n` times from a
starting `saved_jobs` state, threading the table state through. -/
def repeatSave (verify : Verify) (auth : Option String) (data : Body) :
    Nat → List Body → List Body
  | 0, s => s
  | n + 1, s => repeatSave verify auth data n (save_job verify none none s auth data).saved

/-- Result of the `DELETE /api/saved-jobs/<int:job_id>` handler. -/
structure UnsaveOut where
  status : Nat
  errMsg : Option String
  idpCalled : Bool
  saved : List Body
  deleted : List Body
deriving DecidableEq

/-- The `unsave_job` handler (src/app.py): bearer-token guard, token
verification, then a delete on `saved_jobs` filtered by
`(job_id, user_id)`; the response is 200 whether or not any row was deleted.
`delErr` injects a failure of the store's delete call (caught as 401). -/
def unsave_job (verify : Verify) (delErr : Option String) (saved : List Body)
    (auth : Option String) (job_id : Int) : UnsaveOut :=
  if !(tokenGiven auth) then
    { status := 401, errMsg := some "Authentication required", idpCalled := false,
      saved := saved, deleted := [] }
  else
    match verify (pyReplaceBearer (auth.getD "")) with
    | .error e =>
        { status := 401, errMsg := some e, idpCalled := true, saved := saved,
          deleted := [] }
    | .ok uid =>
        match delErr with
        | some e =>
            { status := 401, errMsg := some e, idpCalled := true, saved := saved,
              deleted := [] }
        | none =>
            let deleted := saved.filter (pairMatches (JVal.jnum job_id) uid)
            let rest := saved.filter (fun r => !(pairMatches (JVal.jnum job_id) uid r))
            { status := 200, errMsg := some "Job unsaved successfully",
              idpCalled := true, saved := rest, deleted := deleted }

/-- The `get_saved_jobs` handler (src/app.py): bearer-token guard, token
verification, then a pass-through select (with an embedded join done by the
external store, abstracted as `query` from the user id). -/
def get_saved_jobs (verify : Verify)
    (query : String → Except String (List Body)) (auth : Option String) :
    ListAuthOut :=
  if !(tokenGiven auth) then
    { status := 401, errMsg := some "Authentication required", idpCalled := false,
      rows := [] }
  else
    match verify (pyReplaceBearer (auth.getD "")) with
    | .error e => { status := 401, errMsg := some e, idpCalled := true, rows := [] }
    | .ok uid =>
        match query uid with
        | .error e =>
            { status := 401, errMsg := some e, idpCalled := true, rows := [] }
        | .ok rows =>
            { status := 200, errMsg := none, idpCalled := true, rows := rows }

/-- The route table of src/app.py, one `(method, path)` pair per decorator,
in source order. -/
def routes : List (String × String) :=
  [("GET", "/api/health"),
   ("GET", "/api/debug/users"),
   ("POST", "/api/auth/signup"),
   ("POST", "/api/auth/login"),
   ("GET", "/api/jobs"),
   ("POST", "/api/jobs"),
   ("DELETE", "/api/jobs/<int:job_id>"),
   ("POST", "/api/applications"),
   ("GET", "/api/applications"),
   ("POST", "/api/saved-jobs"),
   ("DELETE", "/api/saved-jobs/<int:job_id>"),
   ("GET", "/api/saved-jobs")]

/-- Modelled from the spec: the HTTP surface listed in section 6 of spec.md
(every path below `/api`), as `(method, path)` pairs.  This follows the
spec's words, for comparison with `routes` taken from the source. -/
def specHttpSurface : List (String × String) :=
  [("GET", "/api/health"),
   ("POST", "/api/auth/signup"),
   ("POST", "/api/auth/login"),
   ("GET", "/api/jobs"),
   ("POST", "/api/jobs"),
   ("DELETE", "/api/jobs/{id}"),
   ("POST", "/api/applications"),
   ("GET", "/api/applications"),
   ("POST", "/api/saved-jobs"),
   ("DELETE", "/api/saved-jobs/{id}"),
   ("GET", "/api/saved-jobs")]

/-! Helper lemmas about the data model. -/

theorem getField_setField (b : Body) (k : String) (v : JVal) :
    getField (setField b k v) k = some v := by
  induction b with
  | nil => simp [getField, setField]
  | cons p rest ih =>
      simp only [setField]
      split
      · simp [getField]
      · next h => simp [getField, h, ih]

theorem filter_not_of_filter_nil {α : Type} (l : List α) (p : α → Bool)
    (h : l.filter p = []) : l.filter (fun r => !(p r)) = l := by
  refine List.filter_eq_self.mpr (fun a ha => ?_)
  have := List.filter_eq_nil_iff.mp h a ha
  simp only [Bool.not_eq_true] at this
  simp [this]

theorem truthyOpt_some_iff (o : Option JVal) :
    truthyOpt o = true ↔ ∃ v, o = some v ∧ v.truthy = true := by
  cases o <;> simp [truthyOpt]

/-- C9: on a data-store failure, `GET /api/jobs` responds 500 with the
collaborator's error text passed through verbatim as the error body; on
success it responds 200 with the rows. -/
theorem get_jobs_error_mapping (e : String) (rows : List Body) :
    (get_jobs (Except.error e)).status = 500 ∧
    (get_jobs (Except.error e)).errMsg = some e ∧
    (get_jobs (Except.ok rows)).status = 200 ∧
    (get_jobs (Except.ok rows)).rows = rows := by
  simp [get_jobs]

/-- C10: the source exposes `GET /api/debug/users`, which is absent from the
spec's HTTP surface; it requires no authorization check and no validation,
returns 200 with at most 10 `user_profiles` rows and their count, and maps a
store failure to 500 with the error message. -/
theorem debug_users_endpoint :
    ("GET", "/api/debug/users") ∈ routes ∧
    ("GET", "/api/debug/users") ∉ specHttpSurface ∧
    ∀ (profiles : List Body) (e : String),
      (debug_users none profiles).status = 200 ∧
      (debug_users none profiles).users = profiles.take 10 ∧
      (debug_users none profiles).count = (debug_users none profiles).users.length ∧
      (debug_users none profiles).users.length ≤ 10 ∧
      (debug_users (some e) profiles).status = 500 ∧
      (debug_users (some e) profiles).errMsg = some e := by
  refine ⟨by decide, by decide, fun profiles e => ?_⟩
  refine ⟨rfl, rfl, rfl, ?_, rfl, rfl⟩
  simp [debug_users]

/-- C5: a job-creation request in which some required field is absent or
falsy is rejected with 400 before the identity provider or the data store is
contacted; and a required field counts as present exactly when its key is
bound in the body to a non-falsy value. -/
theorem create_job_validation (verify : Verify) (insertErr : Option String)
    (jobs : List Body) (auth : Option String) (data : Body) :
    ((∃ k ∈ requiredJobFields, truthyOpt (getField data k) = false) →
      (create_job verify insertErr jobs auth data).status = 400 ∧
      (create_job verify insertErr jobs auth data).storeCalled = false ∧
      (create_job verify insertErr jobs auth data).idpCalled = false ∧
      (create_job verify insertErr jobs auth data).jobs = jobs) ∧
    (∀ k, truthyOpt (getField data k) = true ↔
      ∃ v, getField data k = some v ∧ v.truthy = true) := by
  constructor
  · rintro ⟨k, hk, hf⟩
    have hany : requiredJobFields.any (fun k => !(truthyOpt (getField data k))) = true :=
      List.any_eq_true.mpr ⟨k, hk, by simp [hf]⟩
    simp [create_job, hany]
  · intro k
    exact truthyOpt_some_iff _

/-- C6: a job-creation request with a valid bearer token and all required
fields present yields 201, and the row inserted into (and echoed from) the
`jobs` table carries `created_by` equal to the verified identity id,
whatever `created_by` the request body supplied. -/
theorem create_job_sets_created_by (verify : Verify) (jobs : List Body)
    (auth : Option String) (data : Body) (uid : String)
    (hall : ∀ k ∈ requiredJobFields, truthyOpt (getField data k) = true)
    (ha : tokenGiven auth = true)
    (hv : verify (pyReplaceBearer (auth.getD "")) = Except.ok uid) :
    ∃ row, (create_job verify none jobs auth data).status = 201 ∧
      (create_job verify none jobs auth data).respRows = [row] ∧
      getField row "created_by" = some (JVal.jstr uid) ∧
      (create_job verify none jobs auth data).jobs = jobs ++ [row] := by
  have hany : requiredJobFields.any (fun k => !(truthyOpt (getField data k))) = false := by
    simp only [List.any_eq_false]
    intro k hk
    simp [hall k hk]
  refine ⟨setField data "created_by" (JVal.jstr uid), ?_, ?_, getField_setField _ _ _, ?_⟩ <;>
    simp [create_job, hany, ha, hv]

/-- C7: an authenticated unsave-job request whose store delete succeeds
responds 200 whether or not any row matched; a job never saved leaves the
table unchanged, and repeating the identical call still responds 200. -/
theorem unsave_job_idempotent (verify : Verify) (saved : List Body)
    (auth : Option String) (job_id : Int) (uid : String)
    (ha : tokenGiven auth = true)
    (hv : verify (pyReplaceBearer (auth.getD "")) = Except.ok uid) :
    (unsave_job verify none saved auth job_id).status = 200 ∧
    (saved.filter (pairMatches (JVal.jnum job_id) uid) = [] →
      (unsave_job verify none saved auth job_id).saved = saved) ∧
    (unsave_job verify none
      (unsave_job verify none saved auth job_id).saved auth job_id).status = 200 := by
  refine ⟨?_, fun hnil => ?_, ?_⟩
  · simp [unsave_job, ha, hv]
  · simp [unsave_job, ha, hv, filter_not_of_filter_nil _ _ hnil]
  · simp [unsave_job, ha, hv]

/-- Witness for C5: a body holding only a title is rejected with 400 and
no collaborator call. -/
theorem create_job_validation_witness :
    (create_job (fun _ => Except.ok "u") none [] (some "Bearer t")
      [("title", JVal.jstr "x")]).status = 400 ∧
    (create_job (fun _ => Except.ok "u") none [] (some "Bearer t")
      [("title", JVal.jstr "x")]).storeCalled = false := by
  have h := (create_job_validation (fun _ => Except.ok "u") none [] (some "Bearer t")
      [("title", JVal.jstr "x")]).1 ⟨"company", by decide, by decide⟩
  exact ⟨h.1, h.2.1⟩

/-- Witness for C6: a fully populated job creation under a valid token. -/
theorem create_job_sets_created_by_witness :
    ∃ row,
      (create_job (fun _ => Except.ok "u1") none [] (some "Bearer tok")
        [("title", JVal.jstr "Engineer"), ("company", JVal.jstr "Acme"),
         ("location", JVal.jstr "Remote"), ("description", JVal.jstr "Build things"),
         ("created_by", JVal.jstr "attacker")]).status = 201 ∧
      (create_job (fun _ => Except.ok "u1") none [] (some "Bearer tok")
        [("title", JVal.jstr "Engineer"), ("company", JVal.jstr "Acme"),
         ("location", JVal.jstr "Remote"), ("description", JVal.jstr "Build things"),
         ("created_by", JVal.jstr "attacker")]).respRows = [row] ∧
      getField row "created_by" = some (JVal.jstr "u1") ∧
      (create_job (fun _ => Except.ok "u1") none [] (some "Bearer tok")
        [("title", JVal.jstr "Engineer"), ("company", JVal.jstr "Acme"),
         ("location", JVal.jstr "Remote"), ("description", JVal.jstr "Build things"),
         ("created_by", JVal.jstr "attacker")]).jobs = [] ++ [row] :=
  create_job_sets_created_by (fun _ => Except.ok "u1") [] (some "Bearer tok")
    [("title", JVal.jstr "Engineer"), ("company", JVal.jstr "Acme"),
     ("location", JVal.jstr "Remote"), ("description", JVal.jstr "Build things"),
     ("created_by", JVal.jstr "attacker")] "u1" (by decide) (by decide) rfl

/-- Witness for C7: unsaving from an empty table under a valid token. -/
theorem unsave_job_idempotent_witness :
    (unsave_job (fun _ => Except.ok "u") none [] (some "Bearer t") 3).status = 200 ∧
    (([] : List Body).filter (pairMatches (JVal.jnum 3) "u") = [] →
      (unsave_job (fun _ => Except.ok "u") none [] (some "Bearer t") 3).saved = []) ∧
    (unsave_job (fun _ => Except.ok "u") none
      (unsave_job (fun _ => Except.ok "u") none [] (some "Bearer t") 3).saved
      (some "Bearer t") 3).status = 200 :=
  unsave_job_idempotent (fun _ => Except.ok "u") [] (some "Bearer t") 3 "u"
    (by decide) rfl

/-- C8: login responds 400 without contacting the identity provider when
email or password is missing or falsy, 401 with the provider's message when
the provider rejects the credentials, and 200 with the identity record and
the session tokens on success. -/
theorem login_contract (signIn : JVal → JVal → Except String (Identity × Session))
    (data : Body) :
    ((truthyOpt (getField data "email") = false ∨
        truthyOpt (getField data "password") = false) →
      (login signIn data).status = 400 ∧ (login signIn data).idpCalled = false) ∧
    (∀ m, truthyOpt (getField data "email") = true →
      truthyOpt (getField data "password") = true →
      signIn ((getField data "email").getD JVal.jnull)
        ((getField data "password").getD JVal.jnull) = Except.error m →
      (login signIn data).status = 401 ∧ (login signIn data).errMsg = some m) ∧
    (∀ ident sess, truthyOpt (getField data "email") = true →
      truthyOpt (getField data "password") = true →
      signIn ((getField data "email").getD JVal.jnull)
        ((getField data "password").getD JVal.jnull) = Except.ok (ident, sess) →
      (login signIn data).status = 200 ∧
      (login signIn data).user = some ident ∧
      (login signIn data).session = some sess) := by
  refine ⟨fun hmiss => ?_, fun m he hp hs => ?_, fun ident sess he hp hs => ?_⟩
  · rcases hmiss with h | h <;> simp [login, h]
  · simp [login, he, hp, hs]
  · simp [login, he, hp, hs]

/-- Witness for C8: a successful login at concrete credentials. -/
theorem login_contract_witness :
    (login
      (fun _ _ => Except.ok
        (⟨"i1", "a@x.com", "t0", "t1"⟩, ⟨"acc", "ref"⟩))
      [("email", JVal.jstr "a@x.com"), ("password", JVal.jstr "secret123")]).status
        = 200 ∧
    (login
      (fun _ _ => Except.ok
        (⟨"i1", "a@x.com", "t0", "t1"⟩, ⟨"acc", "ref"⟩))
      [("email", JVal.jstr "a@x.com"), ("password", JVal.jstr "secret123")]).user
        = some ⟨"i1", "a@x.com", "t0", "t1"⟩ ∧
    (login
      (fun _ _ => Except.ok
        (⟨"i1", "a@x.com", "t0", "t1"⟩, ⟨"acc", "ref"⟩))
      [("email", JVal.jstr "a@x.com"), ("password", JVal.jstr "secret123")]).session
        = some ⟨"acc", "ref"⟩ :=
  (login_contract
    (fun _ _ => Except.ok (⟨"i1", "a@x.com", "t0", "t1"⟩, ⟨"acc", "ref"⟩))
    [("email", JVal.jstr "a@x.com"), ("password", JVal.jstr "secret123")]).2.2
    ⟨"i1", "a@x.com", "t0", "t1"⟩ ⟨"acc", "ref"⟩ (by decide) (by decide) rfl

/-- Counterexample to C1 as stated: a create-job request with no
Authorization header whose body also fails validation responds 400, not 401,
because `create_job` validates the body before its bearer-token guard. -/
theorem auth_guard_counterexample :
    (create_job (fun _ => Except.ok "u") none [] none []).status = 400 ∧
    (create_job (fun _ => Except.ok "u") none [] none []).status ≠ 401 := by
  decide

/-- C1 amended: a request whose Authorization header is absent or lacks the
`Bearer ` prefix never reaches the identity provider; the response is 401 on
delete-job, list-applications, list-saved-jobs and unsave-job, while
create-job, create-application and save-job answer 401 only when their body
validation (which runs first) passes, and 400 otherwise. -/
theorem auth_guard_amended (verify : Verify)
    (insertErr selectErr delErr : Option String) (jobs apps saved : List Body)
    (query : String → Except String (List Body)) (auth : Option String)
    (data : Body) (job_id : Int)
    (ha : tokenGiven auth = false) :
    ((delete_job verify delErr jobs auth job_id).status = 401 ∧
      (delete_job verify delErr jobs auth job_id).idpCalled = false) ∧
    ((get_user_applications verify query auth).status = 401 ∧
      (get_user_applications verify query auth).idpCalled = false) ∧
    ((get_saved_jobs verify query auth).status = 401 ∧
      (get_saved_jobs verify query auth).idpCalled = false) ∧
    ((unsave_job verify delErr saved auth job_id).status = 401 ∧
      (unsave_job verify delErr saved auth job_id).idpCalled = false) ∧
    ((create_job verify insertErr jobs auth data).idpCalled = false ∧
      (requiredJobFields.any (fun k => !(truthyOpt (getField data k))) = false →
        (create_job verify insertErr jobs auth data).status = 401) ∧
      (requiredJobFields.any (fun k => !(truthyOpt (getField data k))) = true →
        (create_job verify insertErr jobs auth data).status = 400)) ∧
    ((create_application verify selectErr insertErr apps auth data).idpCalled = false ∧
      (truthyOpt (getField data "job_id") = true →
        (create_application verify selectErr insertErr apps auth data).status = 401) ∧
      (truthyOpt (getField data "job_id") = false →
        (create_application verify selectErr insertErr apps auth data).status = 400)) ∧
    ((save_job verify selectErr insertErr saved auth data).idpCalled = false ∧
      (truthyOpt (getField data "job_id") = true →
        (save_job verify selectErr insertErr saved auth data).status = 401) ∧
      (truthyOpt (getField data "job_id") = false →
        (save_job verify selectErr insertErr saved auth data).status = 400)) := by
  refine ⟨⟨?_, ?_⟩, ⟨?_, ?_⟩, ⟨?_, ?_⟩, ⟨?_, ?_⟩,
    ⟨?_, fun hval => ?_, fun hval => ?_⟩,
    ⟨?_, fun hval => ?_, fun hval => ?_⟩,
    ⟨?_, fun hval => ?_, fun hval => ?_⟩⟩ <;>
    first
      | simp [delete_job, ha]
      | simp [get_user_applications, ha]
      | simp [get_saved_jobs, ha]
      | simp [unsave_job, ha]
      | simp [create_job, ha, hval]
      | simp [create_application, ha, hval]
      | simp [save_job, ha, hval]
      | (cases hval2 : requiredJobFields.any (fun k => !(truthyOpt (getField data k))) <;>
          simp [create_job, ha, hval2])
      | (cases hval2 : truthyOpt (getField data "job_id") <;>
          simp [create_application, ha, hval2])
      | (cases hval2 : truthyOpt (getField data "job_id") <;>
          simp [save_job, ha, hval2])

/-- Witness for C1 amended: a missing header with a body that passes each
endpoint's validation. -/
theorem auth_guard_amended_witness :
    ((delete_job (fun _ => Except.ok "u") none [] none 1).status = 401 ∧
      (delete_job (fun _ => Except.ok "u") none [] none 1).idpCalled = false) ∧
    ((create_job (fun _ => Except.ok "u") none [] none
        [("title", JVal.jstr "a"), ("company", JVal.jstr "b"),
         ("location", JVal.jstr "c"), ("description", JVal.jstr "d")]).idpCalled
      = false) ∧
    ((create_job (fun _ => Except.ok "u") none [] none
        [("title", JVal.jstr "a"), ("company", JVal.jstr "b"),
         ("location", JVal.jstr "c"), ("description", JVal.jstr "d")]).status
      = 401) ∧
    ((save_job (fun _ => Except.ok "u") none none [] none
        [("job_id", JVal.jnum 2)]).status = 401) := by
  have h := auth_guard_amended (fun _ => Except.ok "u") none none none [] [] []
    (fun _ => Except.ok []) none
    [("title", JVal.jstr "a"), ("company", JVal.jstr "b"),
     ("location", JVal.jstr "c"), ("description", JVal.jstr "d")] 1 (by decide)
  have h2 := auth_guard_amended (fun _ => Except.ok "u") none none none [] [] []
    (fun _ => Except.ok []) none [("job_id", JVal.jnum 2)] 1 (by decide)
  exact ⟨h.1, h.2.2.2.2.1.1, h.2.2.2.2.1.2.1 (by decide),
    h2.2.2.2.2.2.2.2.1 (by decide)⟩

/-! Helper lemmas for the duplicate-check protocol. -/

theorem save_job_dup (verify : Verify) (saved : List Body) (auth : Option String)
    (data : Body) (uid : String) (jv : JVal)
    (ha : tokenGiven auth = true)
    (hv : verify (pyReplaceBearer (auth.getD "")) = Except.ok uid)
    (hjv : getField data "job_id" = some jv) (htr : jv.truthy = true)
    (hdup : saved.filter (pairMatches jv uid) ≠ []) :
    (save_job verify none none saved auth data).status = 400 ∧
    (save_job verify none none saved auth data).insertIssued = false ∧
    (save_job verify none none saved auth data).saved = saved := by
  simp [save_job, hjv, truthyOpt, htr, ha, hv, hdup]

theorem save_job_fresh (verify : Verify) (saved : List Body) (auth : Option String)
    (data : Body) (uid : String) (jv : JVal)
    (ha : tokenGiven auth = true)
    (hv : verify (pyReplaceBearer (auth.getD "")) = Except.ok uid)
    (hjv : getField data "job_id" = some jv) (htr : jv.truthy = true)
    (hnil : saved.filter (pairMatches jv uid) = []) :
    (save_job verify none none saved auth data).status = 201 ∧
    (save_job verify none none saved auth data).saved =
      saved ++ [[("job_id", jv), ("user_id", JVal.jstr uid)]] := by
  simp [save_job, hjv, truthyOpt, htr, ha, hv, hnil]

theorem pairMatches_new_row (jv : JVal) (uid : String) :
    pairMatches jv uid [("job_id", jv), ("user_id", JVal.jstr uid)] = true := by
  simp [pairMatches, getField]

theorem repeatSave_of_dup (verify : Verify) (auth : Option String) (data : Body)
    (uid : String) (jv : JVal)
    (ha : tokenGiven auth = true)
    (hv : verify (pyReplaceBearer (auth.getD "")) = Except.ok uid)
    (hjv : getField data "job_id" = some jv) (htr : jv.truthy = true) :
    ∀ (n : Nat) (s : List Body), s.filter (pairMatches jv uid) ≠ [] →
      repeatSave verify auth data n s = s := by
  intro n
  induction n with
  | zero => intro s _; rfl
  | succ m ih =>
      intro s hs
      have hd := save_job_dup verify s auth data uid jv ha hv hjv htr hs
      rw [repeatSave, hd.2.2]
      exact ih s hs

/-- C2: under a valid token, a save-job or create-application request whose
`(job_id, user_id)` pair already has a row is rejected with 400, no insert is
issued and the table is unchanged; consequently sequential save-job calls for
a fixed pair answer 201 once and 400 on every subsequent call. -/
theorem save_duplicate_at_most_once (verify : Verify) (auth : Option String)
    (data : Body) (uid : String) (jv : JVal)
    (ha : tokenGiven auth = true)
    (hv : verify (pyReplaceBearer (auth.getD "")) = Except.ok uid)
    (hjv : getField data "job_id" = some jv) (htr : jv.truthy = true) :
    (∀ saved : List Body, saved.filter (pairMatches jv uid) ≠ [] →
      (save_job verify none none saved auth data).status = 400 ∧
      (save_job verify none none saved auth data).insertIssued = false ∧
      (save_job verify none none saved auth data).saved = saved) ∧
    (∀ apps : List Body, apps.filter (pairMatches jv uid) ≠ [] →
      (create_application verify none none apps auth data).status = 400 ∧
      (create_application verify none none apps auth data).insertIssued = false ∧
      (create_application verify none none apps auth data).apps = apps) ∧
    (∀ saved : List Body, saved.filter (pairMatches jv uid) = [] →
      (save_job verify none none saved auth data).status = 201 ∧
      ∀ n : Nat,
        (save_job verify none none
          (repeatSave verify auth data n
            (save_job verify none none saved auth data).saved)
          auth data).status = 400) := by
  refine ⟨fun saved hdup => save_job_dup verify saved auth data uid jv
      ha hv hjv htr hdup,
    fun apps hdup => ?_, fun saved hnil => ?_⟩
  · simp [create_application, hjv, truthyOpt, htr, ha, hv, hdup]
  · have hf := save_job_fresh verify saved auth data uid jv ha hv hjv htr hnil
    refine ⟨hf.1, fun n => ?_⟩
    have hmatch : ((save_job verify none none saved auth data).saved).filter
        (pairMatches jv uid) ≠ [] := by
      rw [hf.2, List.filter_append]
      simp [pairMatches_new_row]
    rw [repeatSave_of_dup verify auth data uid jv ha hv hjv htr n _ hmatch]
    exact (save_job_dup verify _ auth data uid jv ha hv hjv htr hmatch).1

/-- Witness for C2: saving job 5 twice from an empty table. -/
theorem save_duplicate_at_most_once_witness :
    (save_job (fun _ => Except.ok "u") none none [] (some "Bearer t")
      [("job_id", JVal.jnum 5)]).status = 201 ∧
    (save_job (fun _ => Except.ok "u") none none
      (repeatSave (fun _ => Except.ok "u") (some "Bearer t")
        [("job_id", JVal.jnum 5)] 0
        (save_job (fun _ => Except.ok "u") none none [] (some "Bearer t")
          [("job_id", JVal.jnum 5)]).saved)
      (some "Bearer t") [("job_id", JVal.jnum 5)]).status = 400 := by
  have h := (save_duplicate_at_most_once (fun _ => Except.ok "u")
    (some "Bearer t") [("job_id", JVal.jnum 5)] "u" (JVal.jnum 5)
    (by decide) rfl (by decide) (by decide)).2.2 [] rfl
  exact ⟨h.1, h.2 0⟩

/-- C3: under a valid token verifying to user B, delete-job removes exactly
the rows matching the compound predicate `id == job_id and created_by == B`;
when no row matches, the response is 404 and the table is unchanged — in
particular a job owned by a different user A survives the request, which
answers 404. -/
theorem delete_job_ownership (verify : Verify) (jobs : List Body)
    (auth : Option String) (job_id : Int) (userB : String)
    (ha : tokenGiven auth = true)
    (hv : verify (pyReplaceBearer (auth.getD "")) = Except.ok userB) :
    (delete_job verify none jobs auth job_id).deleted =
      jobs.filter (rowMatchesDelete job_id userB) ∧
    (delete_job verify none jobs auth job_id).jobs =
      jobs.filter (fun r => !(rowMatchesDelete job_id userB r)) ∧
    (jobs.filter (rowMatchesDelete job_id userB) = [] →
      (delete_job verify none jobs auth job_id).status = 404 ∧
      (delete_job verify none jobs auth job_id).jobs = jobs) ∧
    (∀ (r : Body) (userA : String), r ∈ jobs →
      getField r "created_by" = some (JVal.jstr userA) → userA ≠ userB →
      (∀ r2 ∈ jobs, getField r2 "id" = some (JVal.jnum job_id) →
        getField r2 "created_by" = some (JVal.jstr userA)) →
      (delete_job verify none jobs auth job_id).status = 404 ∧
      r ∈ (delete_job verify none jobs auth job_id).jobs) := by
  have hfields :
      (delete_job verify none jobs auth job_id).deleted =
        jobs.filter (rowMatchesDelete job_id userB) ∧
      (delete_job verify none jobs auth job_id).jobs =
        jobs.filter (fun r => !(rowMatchesDelete job_id userB r)) := by
    by_cases h : jobs.filter (rowMatchesDelete job_id userB) = [] <;>
      simp [delete_job, ha, hv, h]
  have hempty : ∀ _ : jobs.filter (rowMatchesDelete job_id userB) = [],
      (delete_job verify none jobs auth job_id).status = 404 ∧
      (delete_job verify none jobs auth job_id).jobs = jobs := by
    intro hnil
    refine ⟨by simp [delete_job, ha, hv, hnil], ?_⟩
    rw [hfields.2]
    exact filter_not_of_filter_nil jobs _ hnil
  refine ⟨hfields.1, hfields.2, hempty, fun r userA hr hcb hne huniq => ?_⟩
  have hnil : jobs.filter (rowMatchesDelete job_id userB) = [] := by
    refine List.filter_eq_nil_iff.mpr (fun r2 hr2 hmatch => ?_)
    have hm := hmatch
    simp only [rowMatchesDelete, Bool.and_eq_true, beq_iff_eq] at hm
    have hA := huniq r2 hr2 hm.1
    rw [hm.2] at hA
    exact hne (by injection (Option.some.inj hA) with h2; exact h2.symm)
  exact ⟨(hempty hnil).1, by rw [(hempty hnil).2]; exact hr⟩

/-- Witness for C3: user B attempts to delete job 1, which user A owns. -/
theorem delete_job_ownership_witness :
    (delete_job (fun _ => Except.ok "B") none
      [[("id", JVal.jnum 1), ("created_by", JVal.jstr "A"), ("title", JVal.jstr "T")]]
      (some "Bearer t") 1).status = 404 ∧
    [("id", JVal.jnum 1), ("created_by", JVal.jstr "A"), ("title", JVal.jstr "T")] ∈
      (delete_job (fun _ => Except.ok "B") none
        [[("id", JVal.jnum 1), ("created_by", JVal.jstr "A"), ("title", JVal.jstr "T")]]
        (some "Bearer t") 1).jobs :=
  (delete_job_ownership (fun _ => Except.ok "B")
    [[("id", JVal.jnum 1), ("created_by", JVal.jstr "A"), ("title", JVal.jstr "T")]]
    (some "Bearer t") 1 "B" (by decide) rfl).2.2.2
    [("id", JVal.jnum 1), ("created_by", JVal.jstr "A"), ("title", JVal.jstr "T")]
    "A" (by decide) (by decide) (by decide) (by decide)

/-! Helper lemmas for the bearer-token rewrite performed by
`token.replace("Bearer ", "")`. -/

theorem stripBearerGo_of_no_occ :
    ∀ (l : List Char) (n : Nat), l.length ≤ n → hasBearerOcc l = false →
      stripBearerGo n l = l := by
  intro l
  induction l with
  | nil => intro n _ _; cases n <;> rfl
  | cons c rest ih =>
      intro n hlen hocc
      cases n with
      | zero => simp at hlen
      | succ m =>
          simp only [hasBearerOcc, Bool.or_eq_false_iff] at hocc
          have hlen' : rest.length ≤ m := by
            simp only [List.length_cons] at hlen
            omega
          rw [stripBearerGo, if_neg (by simp [hocc.1])]
          rw [ih m hlen' hocc.2]

theorem pyReplaceBearer_of_clean (t : String)
    (hocc : hasBearerOcc t.data = false) :
    pyReplaceBearer ("Bearer " ++ t) = t := by
  obtain ⟨l⟩ := t
  have hocc' : hasBearerOcc l = false := hocc
  show String.mk (stripBearerGo
      ('B' :: 'e' :: 'a' :: 'r' :: 'e' :: 'r' :: ' ' :: l).length
      ('B' :: 'e' :: 'a' :: 'r' :: 'e' :: 'r' :: ' ' :: l)) = String.mk l
  congr 1
  rw [List.length_cons, stripBearerGo,
    if_pos (by simp [bearerPat, List.isPrefixOf])]
  simp only [List.drop_succ_cons, List.drop_zero]
  exact stripBearerGo_of_no_occ l _ (by simp [List.length_cons]; omega) hocc'

theorem tokenGiven_bearer (t : String) :
    tokenGiven (some ("Bearer " ++ t)) = true := by
  have h1 : (("Bearer " ++ t) == "") = false := by
    refine beq_eq_false_iff_ne.mpr (fun h => ?_)
    have hlen := congrArg String.length h
    rw [String.length_append] at hlen
    have h7 : ("Bearer " : String).length = 7 := by decide
    have h0 : ("" : String).length = 0 := by decide
    rw [h7, h0] at hlen
    omega
  have h2 : startsWithBearer ("Bearer " ++ t) = true := by
    obtain ⟨l⟩ := t
    show bearerPat.isPrefixOf ('B' :: 'e' :: 'a' :: 'r' :: 'e' :: 'r' :: ' ' :: l) = true
    simp [bearerPat, List.isPrefixOf]
  simp [tokenGiven, h1, h2]

/-- Counterexample to C4 as stated: for the header `Bearer aBearer b`, whose
token part contains `Bearer ` as an internal substring, the string handed to
token verification is `ab`, not the prefix-stripped value `aBearer b`,
because `token.replace("Bearer ", "")` removes every occurrence. -/
theorem token_forwarding_counterexample :
    ("Bearer aBearer b" : String) = "Bearer " ++ "aBearer b" ∧
    (delete_job (fun s => Except.ok s) none [] (some "Bearer aBearer b") 1).idpToken
      = some "ab" ∧
    (delete_job (fun s => Except.ok s) none [] (some "Bearer aBearer b") 1).idpToken
      ≠ some "aBearer b" := by
  refine ⟨rfl, ?_, ?_⟩ <;> decide

/-- C4 amended: the token handed to the identity provider is the header with
every occurrence of `Bearer ` removed; whenever the part after the leading
`Bearer ` prefix contains no further occurrence of `Bearer `, this coincides
with the prefix-stripped header, forwarded verbatim. -/
theorem token_forwarding_amended (verify : Verify)
    (delErr insertErr : Option String) (jobs : List Body) (data : Body)
    (t : String) (job_id : Int)
    (hocc : hasBearerOcc t.data = false) :
    (delete_job verify delErr jobs (some ("Bearer " ++ t)) job_id).idpToken
      = some t ∧
    (requiredJobFields.any (fun k => !(truthyOpt (getField data k))) = false →
      (create_job verify insertErr jobs (some ("Bearer " ++ t)) data).idpToken
        = some t) := by
  have htok := tokenGiven_bearer t
  have hstrip := pyReplaceBearer_of_clean t hocc
  constructor
  · simp only [delete_job, htok, Bool.not_true, Bool.false_eq_true, if_false,
      Option.getD_some, hstrip]
    cases hvr : verify t with
    | error e => simp [hvr]
    | ok uid =>
        cases delErr <;> simp [hvr]
        split <;> rfl
  · intro hval
    simp only [create_job, hval, htok, Bool.not_true, Bool.false_eq_true,
      if_false, Option.getD_some, hstrip]
    cases hvr : verify t with
    | error e => simp [hvr]
    | ok uid => cases insertErr <;> simp [hvr]

/-- Witness for C4 amended: a clean token is forwarded verbatim. -/
theorem token_forwarding_amended_witness :
    (delete_job (fun s => Except.ok s) none [] (some ("Bearer " ++ "tok")) 1).idpToken
      = some "tok" :=
  (token_forwarding_amended (fun s => Except.ok s) none none [] [] "tok" 1
    (by decide)).1

end Jobaction
